import Mathlib

/-!
Verification of the arXiv paper recommender (`reco.py`).

The development shallowly embeds the program's logic:
* `Paper` mirrors the dictionaries built by `fetch_papers` (lines 32-38).
* Python dicts keyed by category are modelled as insertion-ordered
  association lists (`Dict`), with `dictGet` for `d.get(k, 0)` / `d[k]`
  and `dictSet` for `d[k] = v` (update in place, append when absent) —
  matching Python 3.7+ dict semantics.
* `record_feedback` embeds the preference-update block (lines 96-107).
* `preference_scores`, `sorted_preferences`, `sorted_categories`,
  `preferred_categories` and `generate_recommendations` embed
  lines 114-118 and 135-148.
* `fetch_papers_result` embeds the network/parse behaviour of
  `fetch_papers` (lines 8-39), parameterised by the outcome of the single
  HTTP GET the function performs.
-/

/-- A paper record, as built by `fetch_papers` (reco.py lines 32-38):
title, ordered author names, summary, category term attributes in feed
order, and the entry id as `link`. -/
structure Paper where
  title : String
  authors : List String
  summary : String
  categories : List String
  link : String
deriving DecidableEq, Repr

/-- The per-paper verdict offered by the radio button (reco.py line 92). -/
inductive Verdict where
  | Like
  | Dislike
  | Neutral
deriving DecidableEq, Repr

/-- A Python dict from category code to counter, as an insertion-ordered
association list. -/
abbrev Dict := List (String × Nat)

/-- `d.get(k, dflt)`: value at the first entry with key `k`, else `dflt`. -/
def dictGet (d : Dict) (k : String) (dflt : Nat) : Nat :=
  match d with
  | [] => dflt
  | (k', v) :: rest => if k' = k then v else dictGet rest k dflt

/-- `d[k] = v`: replace the value at the first entry with key `k`,
or append `(k, v)` at the end when `k` is absent — Python 3.7+ dict
insertion order. -/
def dictSet (d : Dict) (k : String) (v : Nat) : Dict :=
  match d with
  | [] => [(k, v)]
  | (k', v') :: rest => if k' = k then (k, v) :: rest else (k', v') :: dictSet rest k v

/-- `d[k] = d.get(k, 0) + 1`, the counter bump used at reco.py
lines 101, 104 and 107. -/
def dictIncr (d : Dict) (k : String) : Dict :=
  dictSet d k (dictGet d k 0 + 1)

/-- `for category in categories: d[category] = d.get(category, 0) + 1`. -/
def dictIncrAll (d : Dict) (cats : List String) : Dict :=
  cats.foldl dictIncr d

/-- The session state touched by the claims (reco.py lines 42-53). -/
structure EngineState where
  papers : List Paper
  liked_papers : List Paper
  liked_categories : Dict
  disliked_categories : Dict
  viewed_categories : Dict
  start_index : Nat
deriving DecidableEq, Repr

/-- The fresh session state (reco.py lines 42-53). -/
def initialState : EngineState :=
  { papers := []
    liked_papers := []
    liked_categories := []
    disliked_categories := []
    viewed_categories := []
    start_index := 0 }

/-- The preference-update block run for one paper and one verdict
(reco.py lines 96-107): on Like, append the paper to `liked_papers`
unless a structurally-equal paper is present and bump `liked_categories`
for each category occurrence; on Dislike bump `disliked_categories`;
always bump `viewed_categories` for each category occurrence. -/
def record_feedback (s : EngineState) (paper : Paper) (v : Verdict) : EngineState :=
  let s1 :=
    match v with
    | .Like =>
        { s with
          liked_papers :=
            if paper ∈ s.liked_papers then s.liked_papers else s.liked_papers ++ [paper]
          liked_categories := dictIncrAll s.liked_categories paper.categories }
    | .Dislike =>
        { s with disliked_categories := dictIncrAll s.disliked_categories paper.categories }
    | .Neutral => s
  { s1 with viewed_categories := dictIncrAll s1.viewed_categories paper.categories }

/-- Replay a sequence of feedback events from the fresh session state. -/
def runEvents (evs : List (Paper × Verdict)) : EngineState :=
  evs.foldl (fun s pv => record_feedback s pv.1 pv.2) initialState

/-! ### Scores, ranking and recommendations -/

/-- The per-category preference score computed at reco.py lines 115 and
136: `(liked.get(c, 0) - disliked.get(c, 0)) / viewed[c]`, as a rational. -/
def scoreOf (s : EngineState) (c : String) : Rat :=
  (((dictGet s.liked_categories c 0 : Int) - (dictGet s.disliked_categories c 0 : Int) : Int) : Rat)
    / ((dictGet s.viewed_categories c 0 : Nat) : Rat)

/-- The dict comprehension at reco.py lines 114-117 / 135-138: one
`(category, score)` pair per key of `viewed_categories`, in the dict's
iteration (insertion) order. -/
def preference_scores (s : EngineState) : List (String × Rat) :=
  s.viewed_categories.map (fun kv => (kv.1, scoreOf s kv.1))

/-- `sorted(preference_scores.items(), key=lambda x: x[1], reverse=True)`
(reco.py line 118): a stable sort descending by score. -/
def sorted_preferences (s : EngineState) : List (String × Rat) :=
  (preference_scores s).mergeSort (fun a b => decide (b.2 ≤ a.2))

/-- The identical sort at reco.py line 139 (Generate Recommendations
page). -/
def sorted_categories (s : EngineState) : List (String × Rat) :=
  sorted_preferences s

/-- `[cat for cat, score in sorted_categories if score > 0]`
(reco.py line 140). -/
def preferred_categories (s : EngineState) : List String :=
  ((sorted_categories s).filter (fun p => decide (0 < p.2))).map Prod.fst

/-- The arguments of one `fetch_papers` call. -/
structure FetchCall where
  search_query : String
  start : Nat
  max_results : Nat
deriving DecidableEq, Repr

/-- The observable outcome of the Generate Recommendations page
(reco.py lines 142-148): either the "no preferred categories" message,
or the list of fetch calls issued, one per preferred category in rank
order; `fetch_papers` is called with `search_query=f"cat:{category}"`,
the default `start=0`, and `max_results=3`. -/
inductive RecoOutput where
  | noRecommendation : RecoOutput
  | fetches : List FetchCall → RecoOutput
deriving DecidableEq, Repr

def generate_recommendations (s : EngineState) : RecoOutput :=
  let pc := preferred_categories s
  if pc.isEmpty then .noRecommendation
  else .fetches (pc.map (fun c => ⟨"cat:" ++ c, 0, 3⟩))

/-! ### The Paper Fetcher -/

/-- Base URL for the arXiv API (reco.py line 6). -/
def BASE_URL : String := "http://export.arxiv.org/api/query?"

/-- One `entry` element of a well-formed Atom feed: title text, author
names in document order, summary text, `term` attributes of the
entry-level `category` elements in document order, and the `id` text. -/
structure Entry where
  title : String
  authors : List String
  summary : String
  categories : List String
  id : String
deriving DecidableEq, Repr

/-- The paper dictionary built from one entry (reco.py lines 27-38). -/
def parse_entry (e : Entry) : Paper :=
  { title := e.title
    authors := e.authors
    summary := e.summary
    categories := e.categories
    link := e.id }

/-- The body of the HTTP response: either not well-formed feed data
(`ET.fromstring` raises `ParseError`), or a well-formed feed with its
list of `entry` elements in document order. -/
inductive FeedBody where
  | malformed : FeedBody
  | wellFormed : List Entry → FeedBody
deriving DecidableEq, Repr

/-- The outcome of the single `requests.get` call in `fetch_papers`:
either the request cannot complete (a network exception), or a response
body is obtained. -/
inductive NetOutcome where
  | unreachable : NetOutcome
  | response : FeedBody → NetOutcome
deriving DecidableEq, Repr

/-- The two failure kinds of a fetch (spec section 7). -/
inductive FetchError where
  | NetworkError
  | ParseError
deriving DecidableEq, Repr

/-- The URL built at reco.py lines 20-21. -/
def fetch_url (search_query : String) (start max_results : Nat) : String :=
  BASE_URL ++ "search_query=" ++ search_query ++ "&start=" ++ toString start
    ++ "&max_results=" ++ toString max_results

/-- `fetch_papers` (reco.py lines 8-39), parameterised by the outcome of
the one `requests.get` it performs: a network failure propagates as a
`NetworkError`, a malformed body as a `ParseError`, and a well-formed
feed yields one paper per entry in feed order. No retry happens: the
function consumes exactly the one outcome it is given. -/
def fetch_papers_result (net : NetOutcome) : Except FetchError (List Paper) :=
  match net with
  | .unreachable => .error .NetworkError
  | .response .malformed => .error .ParseError
  | .response (.wellFormed entries) => .ok (entries.map parse_entry)

/-- A fetch performed while a session state is live: `fetch_papers`
reads no session state and writes none, so the state is returned
unchanged alongside the fetch result. -/
def fetch_papers_with_state (s : EngineState) (net : NetOutcome) :
    EngineState × Except FetchError (List Paper) :=
  (s, fetch_papers_result net)


/-- The counter invariant of spec section 3: viewed dominates liked and
disliked, and every stored viewed value is positive. -/
def CounterInv (s : EngineState) : Prop :=
  (∀ c : String,
      dictGet s.liked_categories c 0 ≤ dictGet s.viewed_categories c 0
      ∧ dictGet s.disliked_categories c 0 ≤ dictGet s.viewed_categories c 0)
  ∧ (∀ p ∈ s.viewed_categories, 1 ≤ p.2)

/-- `fetch_papers` with its parameters: builds the URL from the three
query parameters (reco.py lines 20-21), performs the single GET on that
URL, and classifies the outcome. `net` is the state of the network,
giving the outcome of a GET per URL. -/
def fetch_papers_full (search_query : String) (start max_results : Nat)
    (net : String → NetOutcome) : Except FetchError (List Paper) :=
  fetch_papers_result (net (fetch_url search_query start max_results))

/-! ### Concrete example data for scenarios and witnesses -/

/-- A paper whose only category is "cs.AI". -/
def paperAI1 : Paper :=
  { title := "Paper One", authors := ["Alice"], summary := "first summary"
    categories := ["cs.AI"], link := "http://arxiv.org/abs/0001" }

/-- A second, structurally different paper whose only category is
"cs.AI". -/
def paperAI2 : Paper :=
  { title := "Paper Two", authors := ["Bob"], summary := "second summary"
    categories := ["cs.AI"], link := "http://arxiv.org/abs/0002" }

/-- A paper with the two categories "cs.AI" and "cs.LG". -/
def paperAILG : Paper :=
  { title := "Paper Three", authors := ["Carol"], summary := "third summary"
    categories := ["cs.AI", "cs.LG"], link := "http://arxiv.org/abs/0003" }

/-- A paper whose only category is "cs.LG". -/
def paperLG : Paper :=
  { title := "Paper Four", authors := ["Dan"], summary := "fourth summary"
    categories := ["cs.LG"], link := "http://arxiv.org/abs/0004" }

/-- A feed entry carrying the same category term twice. -/
def entryDup : Entry :=
  { title := "Dup", authors := ["Eve"], summary := "dup summary"
    categories := ["cs.AI", "cs.AI"], id := "http://arxiv.org/abs/0005" }

/-- Three feed entries, used for the max_results scenario. -/
def entryA : Entry :=
  { title := "EA", authors := ["A"], summary := "sa"
    categories := ["cs.AI"], id := "http://arxiv.org/abs/000a" }

def entryB : Entry :=
  { title := "EB", authors := ["B"], summary := "sb"
    categories := ["cs.LG"], id := "http://arxiv.org/abs/000b" }

def entryC : Entry :=
  { title := "EC", authors := ["C"], summary := "sc"
    categories := ["math.CO"], id := "http://arxiv.org/abs/000c" }

/-- State after one Like on a "cs.AI" paper. -/
def stateOneLike : EngineState := record_feedback initialState paperAI1 Verdict.Like

/-- State after two Neutral reviews touching "cs.AI" and "cs.LG":
both categories carry score 0. -/
def stateTwoZero : EngineState :=
  runEvents [(paperAI1, Verdict.Neutral), (paperLG, Verdict.Neutral)]

/-! ### Dict lemmas -/

theorem dictGet_dictSet (d : Dict) (k : String) (v : Nat) (c : String) (dflt : Nat) :
    dictGet (dictSet d k v) c dflt = if k = c then v else dictGet d c dflt := by
  induction d with
  | nil =>
      by_cases h : k = c <;> simp [dictGet, dictSet, h]
  | cons p rest ih =>
      obtain ⟨k', v'⟩ := p
      by_cases hk : k' = k
      · subst hk
        by_cases h : k' = c <;> simp [dictGet, dictSet, h]
      · by_cases h : k' = c
        · subst h
          have hkc : ¬ k = k' := fun hh => hk hh.symm
          simp [dictGet, dictSet, hk, hkc]
        · simp [dictGet, dictSet, hk, h, ih]

theorem dictGet_dictIncr (d : Dict) (k c : String) :
    dictGet (dictIncr d k) c 0 = dictGet d c 0 + (if k = c then 1 else 0) := by
  by_cases h : k = c
  · subst h; simp [dictIncr, dictGet_dictSet]
  · simp [dictIncr, dictGet_dictSet, h]

theorem dictGet_dictIncrAll (cats : List String) (d : Dict) (c : String) :
    dictGet (dictIncrAll d cats) c 0 = dictGet d c 0 + cats.count c := by
  induction cats generalizing d with
  | nil => simp [dictIncrAll]
  | cons a rest ih =>
      have h1 : dictIncrAll d (a :: rest) = dictIncrAll (dictIncr d a) rest := rfl
      rw [h1, ih, dictGet_dictIncr]
      have h2 : (a :: rest).count c = rest.count c + (if a = c then 1 else 0) := by
        by_cases h : a = c
        · subst h; simp [List.count_cons]
        · simp [List.count_cons, h, fun hh : c = a => h hh.symm]
      rw [h2]
      omega

/-- Membership in `dictSet`: every entry is an old entry or the new pair. -/
theorem mem_dictSet (d : Dict) (k : String) (v : Nat) (p : String × Nat)
    (hp : p ∈ dictSet d k v) : p ∈ d ∨ p = (k, v) := by
  induction d with
  | nil => simpa [dictSet] using hp
  | cons q rest ih =>
      obtain ⟨k', v'⟩ := q
      by_cases hk : k' = k
      · rw [show dictSet ((k', v') :: rest) k v = (k, v) :: rest by simp [dictSet, hk]] at hp
        rcases List.mem_cons.mp hp with h | h
        · exact Or.inr h
        · exact Or.inl (List.mem_cons_of_mem _ h)
      · rw [show dictSet ((k', v') :: rest) k v = (k', v') :: dictSet rest k v by
            simp [dictSet, hk]] at hp
        rcases List.mem_cons.mp hp with h | h
        · exact Or.inl (by simp [h])
        · rcases ih h with h' | h'
          · exact Or.inl (List.mem_cons_of_mem _ h')
          · exact Or.inr h'

/-- Every stored counter value after a bump is positive if all previous
stored values were. -/
theorem dictIncr_pos (d : Dict) (k : String)
    (h : ∀ p ∈ d, 1 ≤ p.2) : ∀ p ∈ dictIncr d k, 1 ≤ p.2 := by
  intro p hp
  rcases mem_dictSet d k (dictGet d k 0 + 1) p hp with h' | h'
  · exact h p h'
  · subst h'; omega

theorem dictIncrAll_pos (cats : List String) (d : Dict)
    (h : ∀ p ∈ d, 1 ≤ p.2) : ∀ p ∈ dictIncrAll d cats, 1 ≤ p.2 := by
  induction cats generalizing d with
  | nil => exact h
  | cons a rest ih => exact ih (dictIncr d a) (dictIncr_pos d a h)

/-- If a key occurs in the dict and every stored value is positive, the
looked-up value is positive. -/
theorem dictGet_pos_of_mem (d : Dict) (c : String)
    (hmem : c ∈ d.map Prod.fst) (hpos : ∀ p ∈ d, 1 ≤ p.2) :
    1 ≤ dictGet d c 0 := by
  induction d with
  | nil => simp at hmem
  | cons p rest ih =>
      obtain ⟨k, v⟩ := p
      by_cases h : k = c
      · subst h
        have : 1 ≤ v := hpos (k, v) (List.mem_cons_self _ _)
        simpa [dictGet] using this
      · have hmem' : c ∈ rest.map Prod.fst := by
          rcases List.mem_map.mp hmem with ⟨q, hq, hq1⟩
          rcases List.mem_cons.mp hq with h' | h'
          · exact absurd (h' ▸ hq1 : ((k, v) : String × Nat).1 = c) h
          · exact List.mem_map.mpr ⟨q, h', hq1⟩
        have := ih hmem' (fun p hp => hpos p (List.mem_cons_of_mem _ hp))
        simpa [dictGet, h] using this

/-! ### Effect of one feedback event on each counter -/

theorem record_feedback_viewed (s : EngineState) (p : Paper) (v : Verdict) (c : String) :
    dictGet (record_feedback s p v).viewed_categories c 0
      = dictGet s.viewed_categories c 0 + p.categories.count c := by
  cases v <;> simp [record_feedback, dictGet_dictIncrAll]

theorem record_feedback_liked (s : EngineState) (p : Paper) (v : Verdict) (c : String) :
    dictGet (record_feedback s p v).liked_categories c 0
      = dictGet s.liked_categories c 0
        + (if v = Verdict.Like then p.categories.count c else 0) := by
  cases v <;> simp [record_feedback, dictGet_dictIncrAll]

theorem record_feedback_disliked (s : EngineState) (p : Paper) (v : Verdict) (c : String) :
    dictGet (record_feedback s p v).disliked_categories c 0
      = dictGet s.disliked_categories c 0
        + (if v = Verdict.Dislike then p.categories.count c else 0) := by
  cases v <;> simp [record_feedback, dictGet_dictIncrAll]

theorem record_feedback_liked_papers (s : EngineState) (p : Paper) :
    (record_feedback s p Verdict.Like).liked_papers
      = (if p ∈ s.liked_papers then s.liked_papers else s.liked_papers ++ [p]) := by
  simp [record_feedback]

theorem record_feedback_liked_papers_other (s : EngineState) (p : Paper) (v : Verdict)
    (h : v ≠ Verdict.Like) :
    (record_feedback s p v).liked_papers = s.liked_papers := by
  cases v <;> simp_all [record_feedback]

/-! ### Reachability invariants -/

theorem counterInv_initial : CounterInv initialState := by
  constructor
  · intro c; simp [initialState, dictGet]
  · intro p hp; simp [initialState] at hp

theorem counterInv_record_feedback (s : EngineState) (p : Paper) (v : Verdict)
    (h : CounterInv s) : CounterInv (record_feedback s p v) := by
  obtain ⟨hle, hpos⟩ := h
  constructor
  · intro c
    have h1 := record_feedback_viewed s p v c
    have h2 := record_feedback_liked s p v c
    have h3 := record_feedback_disliked s p v c
    have h4 := (hle c).1
    have h5 := (hle c).2
    constructor
    · rw [h1, h2]; cases v <;> simp <;> omega
    · rw [h1, h3]; cases v <;> simp <;> omega
  · have : (record_feedback s p v).viewed_categories
        = dictIncrAll s.viewed_categories p.categories := by
      cases v <;> simp [record_feedback]
    rw [this]
    exact dictIncrAll_pos p.categories s.viewed_categories hpos

theorem counterInv_runEvents (evs : List (Paper × Verdict)) :
    CounterInv (runEvents evs) := by
  suffices h : ∀ s, CounterInv s →
      CounterInv (evs.foldl (fun s pv => record_feedback s pv.1 pv.2) s) by
    exact h initialState counterInv_initial
  induction evs with
  | nil => intro s hs; exact hs
  | cons e rest ih =>
      intro s hs
      exact ih _ (counterInv_record_feedback s e.1 e.2 hs)

/-! ### Claim theorems -/

/-- C1: for every paper and verdict, `record_feedback` increments
`viewed` by 1 for every category of the paper; on Like it additionally
increments `liked` by 1 per category and appends the paper to the liked
list only when no structurally-equal paper is already present, so a
second Like of a structurally-identical paper leaves the liked list with
a single copy; on Dislike it additionally increments `disliked` by 1 per
category; Neutral changes only the viewed counters. -/
theorem C1_record_feedback_correct (s : EngineState) (p : Paper) (v : Verdict)
    (hnd : p.categories.Nodup) :
    (∀ c ∈ p.categories,
        dictGet (record_feedback s p v).viewed_categories c 0
          = dictGet s.viewed_categories c 0 + 1)
    ∧ (v = Verdict.Like →
        (∀ c ∈ p.categories,
            dictGet (record_feedback s p v).liked_categories c 0
              = dictGet s.liked_categories c 0 + 1)
        ∧ (record_feedback s p v).liked_papers
            = (if p ∈ s.liked_papers then s.liked_papers else s.liked_papers ++ [p])
        ∧ (record_feedback (record_feedback s p v) p v).liked_papers
            = (record_feedback s p v).liked_papers
        ∧ (p ∉ s.liked_papers →
            (record_feedback (record_feedback s p v) p v).liked_papers.count p = 1))
    ∧ (v = Verdict.Dislike →
        ∀ c ∈ p.categories,
          dictGet (record_feedback s p v).disliked_categories c 0
            = dictGet s.disliked_categories c 0 + 1)
    ∧ (v = Verdict.Neutral →
        (record_feedback s p v).liked_categories = s.liked_categories
        ∧ (record_feedback s p v).disliked_categories = s.disliked_categories
        ∧ (record_feedback s p v).liked_papers = s.liked_papers) := by
  refine ⟨?_, ?_, ?_, ?_⟩
  · intro c hc
    rw [record_feedback_viewed, List.count_eq_one_of_mem hnd hc]
  · rintro rfl
    refine ⟨?_, record_feedback_liked_papers s p, ?_, ?_⟩
    · intro c hc
      rw [record_feedback_liked, if_pos rfl, List.count_eq_one_of_mem hnd hc]
    · have h1 := record_feedback_liked_papers s p
      have hmem : p ∈ (record_feedback s p Verdict.Like).liked_papers := by
        rw [h1]
        by_cases h : p ∈ s.liked_papers
        · simp [h]
        · simp [h]
      rw [record_feedback_liked_papers, if_pos hmem]
    · intro hnotin
      have h1 := record_feedback_liked_papers s p
      have hmem : p ∈ (record_feedback s p Verdict.Like).liked_papers := by
        rw [h1, if_neg hnotin]; simp
      rw [record_feedback_liked_papers, if_pos hmem, h1, if_neg hnotin]
      have h0 : s.liked_papers.count p = 0 := List.count_eq_zero.mpr hnotin
      simp [List.count_append, h0]
  · rintro rfl
    intro c hc
    rw [record_feedback_disliked, if_pos rfl, List.count_eq_one_of_mem hnd hc]
  · rintro rfl
    exact ⟨rfl, rfl, rfl⟩

/-- C1 witness: the theorem applied to the fresh state, `paperAILG`
(categories ["cs.AI", "cs.LG"], duplicate-free) and the Like verdict. -/
theorem C1_record_feedback_correct_witness :
    paperAILG.categories.Nodup
    ∧ ((∀ c ∈ paperAILG.categories,
          dictGet (record_feedback initialState paperAILG Verdict.Like).viewed_categories c 0
            = dictGet initialState.viewed_categories c 0 + 1)
      ∧ (Verdict.Like = Verdict.Like →
          (∀ c ∈ paperAILG.categories,
              dictGet (record_feedback initialState paperAILG Verdict.Like).liked_categories c 0
                = dictGet initialState.liked_categories c 0 + 1)
          ∧ (record_feedback initialState paperAILG Verdict.Like).liked_papers
              = (if paperAILG ∈ initialState.liked_papers then initialState.liked_papers
                else initialState.liked_papers ++ [paperAILG])
          ∧ (record_feedback (record_feedback initialState paperAILG Verdict.Like)
                paperAILG Verdict.Like).liked_papers
              = (record_feedback initialState paperAILG Verdict.Like).liked_papers
          ∧ (paperAILG ∉ initialState.liked_papers →
              (record_feedback (record_feedback initialState paperAILG Verdict.Like)
                paperAILG Verdict.Like).liked_papers.count paperAILG = 1))
      ∧ (Verdict.Like = Verdict.Dislike →
          ∀ c ∈ paperAILG.categories,
            dictGet (record_feedback initialState paperAILG Verdict.Like).disliked_categories c 0
              = dictGet initialState.disliked_categories c 0 + 1)
      ∧ (Verdict.Like = Verdict.Neutral →
          (record_feedback initialState paperAILG Verdict.Like).liked_categories
              = initialState.liked_categories
          ∧ (record_feedback initialState paperAILG Verdict.Like).disliked_categories
              = initialState.disliked_categories
          ∧ (record_feedback initialState paperAILG Verdict.Like).liked_papers
              = initialState.liked_papers)) :=
  ⟨by decide, C1_record_feedback_correct initialState paperAILG Verdict.Like (by decide)⟩

/-- C2: for every sequence of recorded feedback events and every
category, viewed dominates liked and disliked; and one `record_feedback`
step preserves the domination invariant at any state satisfying it. -/
theorem C2_viewed_dominates :
    (∀ (evs : List (Paper × Verdict)) (c : String),
        dictGet (runEvents evs).liked_categories c 0
            ≤ dictGet (runEvents evs).viewed_categories c 0
        ∧ dictGet (runEvents evs).disliked_categories c 0
            ≤ dictGet (runEvents evs).viewed_categories c 0)
    ∧ (∀ (s : EngineState) (p : Paper) (v : Verdict),
        (∀ c : String,
            dictGet s.liked_categories c 0 ≤ dictGet s.viewed_categories c 0
            ∧ dictGet s.disliked_categories c 0 ≤ dictGet s.viewed_categories c 0) →
        ∀ c : String,
          dictGet (record_feedback s p v).liked_categories c 0
              ≤ dictGet (record_feedback s p v).viewed_categories c 0
          ∧ dictGet (record_feedback s p v).disliked_categories c 0
              ≤ dictGet (record_feedback s p v).viewed_categories c 0) := by
  constructor
  · intro evs c
    exact (counterInv_runEvents evs).1 c
  · intro s p v h c
    have h1 := record_feedback_viewed s p v c
    have h2 := record_feedback_liked s p v c
    have h3 := record_feedback_disliked s p v c
    have h4 := (h c).1
    have h5 := (h c).2
    constructor
    · rw [h1, h2]; cases v <;> simp <;> omega
    · rw [h1, h3]; cases v <;> simp <;> omega

/-- C2 witness: the preservation half applied at the fresh state (whose
counters trivially satisfy the invariant), `paperAI1` and Like, read off
at the category "cs.AI". -/
theorem C2_viewed_dominates_witness :
    (∀ c : String,
        dictGet initialState.liked_categories c 0
            ≤ dictGet initialState.viewed_categories c 0
        ∧ dictGet initialState.disliked_categories c 0
            ≤ dictGet initialState.viewed_categories c 0)
    ∧ (dictGet (record_feedback initialState paperAI1 Verdict.Like).liked_categories "cs.AI" 0
          ≤ dictGet (record_feedback initialState paperAI1 Verdict.Like).viewed_categories "cs.AI" 0
      ∧ dictGet (record_feedback initialState paperAI1 Verdict.Like).disliked_categories "cs.AI" 0
          ≤ dictGet (record_feedback initialState paperAI1 Verdict.Like).viewed_categories "cs.AI" 0) :=
  ⟨fun c => by constructor <;> exact Nat.le_refl _,
   C2_viewed_dominates.2 initialState paperAI1 Verdict.Like
     (fun c => by constructor <;> exact Nat.le_refl _) "cs.AI"⟩

/-- C10: a paper's categories are an ordered list that may contain
duplicates — `parse_entry` keeps the category terms exactly as they
occur in the entry, and a single `record_feedback` increments a
category's viewed counter by its number of occurrences k (and liked or
disliked by k on a matching verdict), not by 1. -/
theorem C10_duplicate_categories_counted (s : EngineState) (e : Entry) (v : Verdict)
    (c : String) :
    (parse_entry e).categories = e.categories
    ∧ dictGet (record_feedback s (parse_entry e) v).viewed_categories c 0
        = dictGet s.viewed_categories c 0 + e.categories.count c
    ∧ (v = Verdict.Like →
        dictGet (record_feedback s (parse_entry e) v).liked_categories c 0
          = dictGet s.liked_categories c 0 + e.categories.count c)
    ∧ (v = Verdict.Dislike →
        dictGet (record_feedback s (parse_entry e) v).disliked_categories c 0
          = dictGet s.disliked_categories c 0 + e.categories.count c) := by
  refine ⟨rfl, ?_, ?_, ?_⟩
  · rw [record_feedback_viewed]; rfl
  · rintro rfl
    rw [record_feedback_liked, if_pos rfl]; rfl
  · rintro rfl
    rw [record_feedback_disliked, if_pos rfl]; rfl

/-- C10 witness: `entryDup` carries "cs.AI" twice, and one Like on the
parsed paper pushes the "cs.AI" viewed and liked counters from 0 to 2,
not to 1. -/
theorem C10_duplicate_categories_counted_witness :
    ((parse_entry entryDup).categories = entryDup.categories
      ∧ dictGet (record_feedback initialState (parse_entry entryDup) Verdict.Like).viewed_categories
            "cs.AI" 0
          = dictGet initialState.viewed_categories "cs.AI" 0 + entryDup.categories.count "cs.AI"
      ∧ (Verdict.Like = Verdict.Like →
          dictGet (record_feedback initialState (parse_entry entryDup) Verdict.Like).liked_categories
              "cs.AI" 0
            = dictGet initialState.liked_categories "cs.AI" 0 + entryDup.categories.count "cs.AI")
      ∧ (Verdict.Like = Verdict.Dislike →
          dictGet (record_feedback initialState (parse_entry entryDup) Verdict.Like).disliked_categories
              "cs.AI" 0
            = dictGet initialState.disliked_categories "cs.AI" 0
              + entryDup.categories.count "cs.AI"))
    ∧ entryDup.categories.count "cs.AI" = 2
    ∧ dictGet (record_feedback initialState (parse_entry entryDup) Verdict.Like).viewed_categories
        "cs.AI" 0 = 2 :=
  ⟨C10_duplicate_categories_counted initialState entryDup Verdict.Like "cs.AI",
   by decide, by decide⟩

/-- C3: for every reachable state and category with a positive viewed
count, the score equals (liked − disliked)/viewed and lies in [−1, 1];
in the Dislike-then-Like scenario on "cs.AI" the viewed count is 2 and
the score is 0. -/
theorem C3_score_formula_and_bounds (evs : List (Paper × Verdict)) (c : String)
    (hv : 0 < dictGet (runEvents evs).viewed_categories c 0) :
    (scoreOf (runEvents evs) c
        = (((dictGet (runEvents evs).liked_categories c 0 : Int)
            - (dictGet (runEvents evs).disliked_categories c 0 : Int) : Int) : Rat)
          / ((dictGet (runEvents evs).viewed_categories c 0 : Nat) : Rat)
      ∧ (-1 : Rat) ≤ scoreOf (runEvents evs) c ∧ scoreOf (runEvents evs) c ≤ 1)
    ∧ (dictGet (runEvents [(paperAI1, Verdict.Dislike), (paperAI2, Verdict.Like)]).viewed_categories
          "cs.AI" 0 = 2
      ∧ scoreOf (runEvents [(paperAI1, Verdict.Dislike), (paperAI2, Verdict.Like)]) "cs.AI"
          = 0) := by
  have hle := (counterInv_runEvents evs).1 c
  have hV' : (0 : Rat) < ((dictGet (runEvents evs).viewed_categories c 0 : Nat) : Rat) := by
    exact_mod_cast hv
  have hL' : ((dictGet (runEvents evs).liked_categories c 0 : Nat) : Rat)
      ≤ ((dictGet (runEvents evs).viewed_categories c 0 : Nat) : Rat) := by
    exact_mod_cast hle.1
  have hD' : ((dictGet (runEvents evs).disliked_categories c 0 : Nat) : Rat)
      ≤ ((dictGet (runEvents evs).viewed_categories c 0 : Nat) : Rat) := by
    exact_mod_cast hle.2
  have hL0 : (0 : Rat) ≤ ((dictGet (runEvents evs).liked_categories c 0 : Nat) : Rat) := by
    positivity
  have hD0 : (0 : Rat) ≤ ((dictGet (runEvents evs).disliked_categories c 0 : Nat) : Rat) := by
    positivity
  refine ⟨⟨rfl, ?_, ?_⟩, by decide, ?_⟩
  · rw [show scoreOf (runEvents evs) c
        = (((dictGet (runEvents evs).liked_categories c 0 : Int)
            - (dictGet (runEvents evs).disliked_categories c 0 : Int) : Int) : Rat)
          / ((dictGet (runEvents evs).viewed_categories c 0 : Nat) : Rat) from rfl,
      le_div_iff₀ hV']
    push_cast
    linarith
  · rw [show scoreOf (runEvents evs) c
        = (((dictGet (runEvents evs).liked_categories c 0 : Int)
            - (dictGet (runEvents evs).disliked_categories c 0 : Int) : Int) : Rat)
          / ((dictGet (runEvents evs).viewed_categories c 0 : Nat) : Rat) from rfl,
      div_le_one hV']
    push_cast
    linarith
  · have h1 : dictGet (runEvents [(paperAI1, Verdict.Dislike), (paperAI2, Verdict.Like)]).liked_categories
        "cs.AI" 0 = 1 := by decide
    have h2 : dictGet (runEvents [(paperAI1, Verdict.Dislike), (paperAI2, Verdict.Like)]).disliked_categories
        "cs.AI" 0 = 1 := by decide
    have h3 : dictGet (runEvents [(paperAI1, Verdict.Dislike), (paperAI2, Verdict.Like)]).viewed_categories
        "cs.AI" 0 = 2 := by decide
    rw [scoreOf, h1, h2, h3]
    norm_num

/-- C3 witness: the theorem applied to the Dislike-then-Like scenario at
the category "cs.AI", whose viewed count 2 is positive. -/
theorem C3_score_formula_and_bounds_witness :
    (0 < dictGet (runEvents [(paperAI1, Verdict.Dislike), (paperAI2, Verdict.Like)]).viewed_categories
        "cs.AI" 0)
    ∧ ((-1 : Rat) ≤ scoreOf (runEvents [(paperAI1, Verdict.Dislike), (paperAI2, Verdict.Like)]) "cs.AI"
      ∧ scoreOf (runEvents [(paperAI1, Verdict.Dislike), (paperAI2, Verdict.Like)]) "cs.AI" ≤ 1) :=
  ⟨by decide,
   ((C3_score_formula_and_bounds [(paperAI1, Verdict.Dislike), (paperAI2, Verdict.Like)]
      "cs.AI" (by decide)).1).2⟩

/-- C4: in any reachable state, a category with viewed count 0 never
appears in the ranked output, and every entry of the score dict carries
a positive viewed count as its denominator, so the division in the score
computation never sees a zero denominator. -/
theorem C4_zero_viewed_excluded (evs : List (Paper × Verdict)) :
    (∀ c : String, dictGet (runEvents evs).viewed_categories c 0 = 0 →
        c ∉ (sorted_categories (runEvents evs)).map Prod.fst)
    ∧ (∀ kv ∈ preference_scores (runEvents evs),
        0 < dictGet (runEvents evs).viewed_categories kv.1 0) := by
  have hpos : ∀ kv ∈ preference_scores (runEvents evs),
      0 < dictGet (runEvents evs).viewed_categories kv.1 0 := by
    intro kv hkv
    rcases List.mem_map.mp hkv with ⟨q, hq, hq1⟩
    have hkey : kv.1 ∈ (runEvents evs).viewed_categories.map Prod.fst :=
      List.mem_map.mpr ⟨q, hq, by rw [← hq1]⟩
    exact dictGet_pos_of_mem _ _ hkey (counterInv_runEvents evs).2
  refine ⟨?_, hpos⟩
  intro c hc hmem
  rcases List.mem_map.mp hmem with ⟨kv, hkv, hkv1⟩
  have hkv' : kv ∈ preference_scores (runEvents evs) := List.mem_mergeSort.mp hkv
  have := hpos kv hkv'
  rw [hkv1, hc] at this
  exact Nat.lt_irrefl 0 this

/-- C4 witness: after one Like on a "cs.AI" paper, "cs.LG" has viewed
count 0 and is absent from the ranked output, while the score entry for
"cs.AI" carries the positive viewed count 1. -/
theorem C4_zero_viewed_excluded_witness :
    (dictGet (runEvents [(paperAI1, Verdict.Like)]).viewed_categories "cs.LG" 0 = 0
      ∧ "cs.LG" ∉ (sorted_categories (runEvents [(paperAI1, Verdict.Like)])).map Prod.fst)
    ∧ (("cs.AI", scoreOf (runEvents [(paperAI1, Verdict.Like)]) "cs.AI")
          ∈ preference_scores (runEvents [(paperAI1, Verdict.Like)])
      ∧ 0 < dictGet (runEvents [(paperAI1, Verdict.Like)]).viewed_categories "cs.AI" 0) :=
  ⟨⟨by decide, (C4_zero_viewed_excluded [(paperAI1, Verdict.Like)]).1 "cs.LG" (by decide)⟩,
   ⟨List.mem_map.mpr ⟨("cs.AI", 1), by decide, rfl⟩,
    (C4_zero_viewed_excluded [(paperAI1, Verdict.Like)]).2
      ("cs.AI", scoreOf (runEvents [(paperAI1, Verdict.Like)]) "cs.AI")
      (List.mem_map.mpr ⟨("cs.AI", 1), by decide, rfl⟩)⟩⟩

/-- C5: the ranked output is sorted in descending score order, is a
permutation of the score entries, keeps tied entries in the original
iteration order of the underlying mapping (a stable sort), and a second
call with no intervening feedback returns the same sequence. -/
theorem C5_ranked_sorted_stable (s : EngineState) :
    List.Pairwise (fun a b : String × Rat => b.2 ≤ a.2) (sorted_preferences s)
    ∧ (sorted_preferences s).Perm (preference_scores s)
    ∧ (∀ a b : String × Rat, [a, b].Sublist (preference_scores s) → a.2 = b.2 →
        [a, b].Sublist (sorted_preferences s))
    ∧ sorted_preferences s = sorted_preferences s := by
  have htrans : ∀ a b c : String × Rat,
      (fun a b : String × Rat => decide (b.2 ≤ a.2)) a b →
      (fun a b : String × Rat => decide (b.2 ≤ a.2)) b c →
      (fun a b : String × Rat => decide (b.2 ≤ a.2)) a c := by
    intro a b c hab hbc
    simp only [decide_eq_true_eq] at *
    exact le_trans hbc hab
  have htotal : ∀ a b : String × Rat,
      ((fun a b : String × Rat => decide (b.2 ≤ a.2)) a b
        || (fun a b : String × Rat => decide (b.2 ≤ a.2)) b a) = true := by
    intro a b
    simp only [Bool.or_eq_true, decide_eq_true_eq]
    exact le_total b.2 a.2
  refine ⟨?_, List.mergeSort_perm _ _, ?_, rfl⟩
  · have h := List.sorted_mergeSort htrans htotal (preference_scores s)
    exact h.imp (fun hab => of_decide_eq_true hab)
  · intro a b hab heq
    exact List.pair_sublist_mergeSort htrans htotal (by simp [heq]) hab

/-! ### Evaluations of the concrete states -/

theorem scoreOf_stateOneLike : scoreOf stateOneLike "cs.AI" = 1 := by
  have l1 : dictGet stateOneLike.liked_categories "cs.AI" 0 = 1 := by decide
  have d1 : dictGet stateOneLike.disliked_categories "cs.AI" 0 = 0 := by decide
  have v1 : dictGet stateOneLike.viewed_categories "cs.AI" 0 = 1 := by decide
  rw [scoreOf, l1, d1, v1]
  norm_num

theorem preference_scores_stateOneLike :
    preference_scores stateOneLike = [("cs.AI", 1)] := by
  have hv : stateOneLike.viewed_categories = [("cs.AI", 1)] := by decide
  simp [preference_scores, hv, scoreOf_stateOneLike]

theorem sorted_categories_stateOneLike :
    sorted_categories stateOneLike = [("cs.AI", 1)] := by
  rw [sorted_categories, sorted_preferences, preference_scores_stateOneLike,
    List.mergeSort_singleton]

theorem preferred_categories_stateOneLike :
    preferred_categories stateOneLike = ["cs.AI"] := by
  rw [preferred_categories, sorted_categories_stateOneLike]
  norm_num

theorem generate_recommendations_stateOneLike :
    generate_recommendations stateOneLike
      = RecoOutput.fetches [{ search_query := "cat:" ++ "cs.AI", start := 0, max_results := 3 }] := by
  simp [generate_recommendations, preferred_categories_stateOneLike]

theorem scoreOf_stateTwoZero_AI : scoreOf stateTwoZero "cs.AI" = 0 := by
  have l1 : dictGet stateTwoZero.liked_categories "cs.AI" 0 = 0 := by decide
  have d1 : dictGet stateTwoZero.disliked_categories "cs.AI" 0 = 0 := by decide
  have v1 : dictGet stateTwoZero.viewed_categories "cs.AI" 0 = 1 := by decide
  rw [scoreOf, l1, d1, v1]
  norm_num

theorem scoreOf_stateTwoZero_LG : scoreOf stateTwoZero "cs.LG" = 0 := by
  have l1 : dictGet stateTwoZero.liked_categories "cs.LG" 0 = 0 := by decide
  have d1 : dictGet stateTwoZero.disliked_categories "cs.LG" 0 = 0 := by decide
  have v1 : dictGet stateTwoZero.viewed_categories "cs.LG" 0 = 1 := by decide
  rw [scoreOf, l1, d1, v1]
  norm_num

theorem preference_scores_stateTwoZero :
    preference_scores stateTwoZero = [("cs.AI", 0), ("cs.LG", 0)] := by
  have hv : stateTwoZero.viewed_categories = [("cs.AI", 1), ("cs.LG", 1)] := by decide
  simp [preference_scores, hv, scoreOf_stateTwoZero_AI, scoreOf_stateTwoZero_LG]

/-- C5 witness: in the state with two tied zero-score categories, the
tied pair in its original mapping order remains in that order in the
sorted output. -/
theorem C5_ranked_sorted_stable_witness :
    ([("cs.AI", (0 : Rat)), ("cs.LG", (0 : Rat))].Sublist (preference_scores stateTwoZero)
      ∧ (("cs.AI", (0 : Rat)) : String × Rat).2 = (("cs.LG", (0 : Rat)) : String × Rat).2)
    ∧ [("cs.AI", (0 : Rat)), ("cs.LG", (0 : Rat))].Sublist (sorted_preferences stateTwoZero) :=
  ⟨⟨by rw [preference_scores_stateTwoZero], rfl⟩,
   (C5_ranked_sorted_stable stateTwoZero).2.2.1 ("cs.AI", 0) ("cs.LG", 0)
     (by rw [preference_scores_stateTwoZero]) rfl⟩

/-- C6: the preferred categories are exactly the categories of the
ranked output with strictly positive score, in rank order (a sublist of
the ranked category sequence); the list is empty exactly when the page
reports that no recommendation can be generated, which is the normal
outcome of the total function `generate_recommendations`; on an engine
with no recorded feedback the list is empty and the page reports no
recommendation. -/
theorem C6_preferred_positive_in_rank_order (s : EngineState) :
    (preferred_categories s).Sublist ((sorted_categories s).map Prod.fst)
    ∧ (∀ c : String,
        c ∈ preferred_categories s ↔ ∃ q : Rat, (c, q) ∈ sorted_categories s ∧ 0 < q)
    ∧ (preferred_categories s = [] ↔ generate_recommendations s = RecoOutput.noRecommendation)
    ∧ preferred_categories initialState = []
    ∧ generate_recommendations initialState = RecoOutput.noRecommendation := by
  have hinit : preferred_categories initialState = [] := by
    have h0 : preference_scores initialState = [] := rfl
    rw [preferred_categories, sorted_categories, sorted_preferences, h0, List.mergeSort_nil]
    rfl
  refine ⟨?_, ?_, ?_, hinit, ?_⟩
  · exact ((sorted_categories s).filter_sublist).map Prod.fst
  · intro c
    constructor
    · intro hc
      rcases List.mem_map.mp hc with ⟨kv, hkv, hkv1⟩
      rcases List.mem_filter.mp hkv with ⟨hmem, hposb⟩
      exact ⟨kv.2, by rw [← hkv1]; exact hmem, of_decide_eq_true hposb⟩
    · rintro ⟨q, hq, hq0⟩
      exact List.mem_map.mpr
        ⟨(c, q), List.mem_filter.mpr ⟨hq, decide_eq_true hq0⟩, rfl⟩
  · constructor
    · intro h
      simp [generate_recommendations, h]
    · intro h
      by_cases hp : preferred_categories s = []
      · exact hp
      · have hne : (preferred_categories s).isEmpty = false := by
          simpa [List.isEmpty_iff] using hp
        simp [generate_recommendations, hne] at h
  · simp [generate_recommendations, hinit]

/-- C6 witness: the empty-engine conjuncts of the theorem, read off at
the fresh state. -/
theorem C6_preferred_positive_in_rank_order_witness :
    preferred_categories initialState = []
    ∧ generate_recommendations initialState = RecoOutput.noRecommendation :=
  ⟨(C6_preferred_positive_in_rank_order initialState).2.2.2.1,
   (C6_preferred_positive_in_rank_order initialState).2.2.2.2⟩

/-- C7 counterexample: after one Like on a "cs.AI" paper the page issues
a fetch whose query is "cat:" ++ "cs.AI", which differs from
"category:" ++ "cs.AI" — the fetch query the claim prescribes is never
the one built by the code. -/
theorem C7_counterexample_query_string :
    generate_recommendations stateOneLike
      = RecoOutput.fetches [{ search_query := "cat:" ++ "cs.AI", start := 0, max_results := 3 }]
    ∧ "cat:" ++ "cs.AI" ≠ "category:" ++ "cs.AI" :=
  ⟨generate_recommendations_stateOneLike, by decide⟩

/-- C7 (amended): recommendation generation performs, for each category
in `preferred_categories` in rank order, exactly one fetch call with
query "cat:" concatenated with the category code, start = 0 and
max_results = 3. -/
theorem C7_one_fetch_per_preferred_category (s : EngineState)
    (h : preferred_categories s ≠ []) :
    generate_recommendations s
      = RecoOutput.fetches ((preferred_categories s).map
          (fun c => { search_query := "cat:" ++ c, start := 0, max_results := 3 })) := by
  have hne : (preferred_categories s).isEmpty = false := by
    simpa [List.isEmpty_iff] using h
  simp [generate_recommendations, hne]

/-- C7 witness: the amended theorem applied after one Like on a "cs.AI"
paper, where the preferred list is the nonempty ["cs.AI"]. -/
theorem C7_one_fetch_per_preferred_category_witness :
    preferred_categories stateOneLike ≠ []
    ∧ generate_recommendations stateOneLike
        = RecoOutput.fetches ((preferred_categories stateOneLike).map
            (fun c => { search_query := "cat:" ++ c, start := 0, max_results := 3 })) :=
  ⟨by rw [preferred_categories_stateOneLike]; simp,
   C7_one_fetch_per_preferred_category stateOneLike
     (by rw [preferred_categories_stateOneLike]; simp)⟩

/-- C8: against a well-formed feed, fetch returns one Paper per entry in
feed order — title, ordered author names, summary, entry-level category
terms, and the id as link; a feed with no entries yields the empty list,
and a feed with 3 entries yields exactly 3 papers even when
max_results = 5. -/
theorem C8_fetch_parses_feed (q : String) (st mr : Nat) (net : String → NetOutcome)
    (entries : List Entry)
    (h : net (fetch_url q st mr) = NetOutcome.response (FeedBody.wellFormed entries)) :
    fetch_papers_full q st mr net = Except.ok (entries.map parse_entry)
    ∧ (∀ e ∈ entries, parse_entry e
        = { title := e.title, authors := e.authors, summary := e.summary,
            categories := e.categories, link := e.id })
    ∧ (entries = [] → fetch_papers_full q st mr net = Except.ok [])
    ∧ (entries.length = 3 →
        ∃ l : List Paper, fetch_papers_full q st mr net = Except.ok l ∧ l.length = 3) := by
  have hres : fetch_papers_full q st mr net = Except.ok (entries.map parse_entry) := by
    rw [fetch_papers_full, h]
    rfl
  refine ⟨hres, fun e _ => rfl, ?_, ?_⟩
  · rintro rfl
    simpa using hres
  · intro h3
    exact ⟨entries.map parse_entry, hres, by simp [h3]⟩

/-- C8 witness: a network returning a well-formed 3-entry feed for the
URL built with max_results = 5 yields exactly the 3 parsed papers. -/
theorem C8_fetch_parses_feed_witness :
    ((fun _ : String => NetOutcome.response (FeedBody.wellFormed [entryA, entryB, entryC]))
        (fetch_url "all" 0 5)
      = NetOutcome.response (FeedBody.wellFormed [entryA, entryB, entryC]))
    ∧ fetch_papers_full "all" 0 5
        (fun _ : String => NetOutcome.response (FeedBody.wellFormed [entryA, entryB, entryC]))
        = Except.ok ([entryA, entryB, entryC].map parse_entry) :=
  ⟨rfl,
   (C8_fetch_parses_feed "all" 0 5
     (fun _ : String => NetOutcome.response (FeedBody.wellFormed [entryA, entryB, entryC]))
     [entryA, entryB, entryC] rfl).1⟩

/-- C9: a fetch fails with a NetworkError when its single request cannot
complete and with a ParseError when the response body is not well-formed
feed data; the result is exactly the classification of the one response
obtained for the one URL built from the parameters (no internal retry);
and a fetch — failing or not — leaves the engine state unchanged. -/
theorem C9_fetch_error_classification (s : EngineState) (net : NetOutcome)
    (q : String) (st mr : Nat) (netf : String → NetOutcome) :
    fetch_papers_result NetOutcome.unreachable = Except.error FetchError.NetworkError
    ∧ fetch_papers_result (NetOutcome.response FeedBody.malformed)
        = Except.error FetchError.ParseError
    ∧ fetch_papers_full q st mr netf = fetch_papers_result (netf (fetch_url q st mr))
    ∧ (fetch_papers_with_state s net).1 = s
    ∧ (fetch_papers_with_state s net).2 = fetch_papers_result net :=
  ⟨rfl, rfl, rfl, rfl, rfl⟩
